import Mathlib

/-!
Verification development for the FIR (First Information Report) analysis
pipeline: a shallow embedding of the rule-engine components
(`legal_mapper`, `fir_validator`, `information_extractor`,
`main_analyzer`) together with theorems about them.

Python machine details are embedded explicitly: string truthiness
(`not x` on `None`, `0`, `""`), `hasattr` attribute presence (as
`Option` fields), and the concrete regular expressions used by the code
(implemented directly as deterministic scanners over `List Char`).
Where a pattern's backtracking is observable — the greedy `\s+` that can
give a whitespace character back to a following `([^,]+)` capture in the
witness patterns — the scanner implements that case explicitly
(`wsCapNonComma`); everywhere else no continuation overlaps the preceding
greedy element's character class, so maximal-munch scanning is equivalent
to the regex-engine semantics. Floating point scores are modelled over `ℚ`.
-/

namespace FIRAnalysis

/-! ## String helpers (Python semantics) -/

/-- Python whitespace class `\s` (ASCII part). -/
def pyIsSpace (c : Char) : Bool :=
  c == ' ' || c == '\t' || c == '\n' || c == '\r' || c == '\x0b' || c == '\x0c'

/-- `n` is a prefix of `h` (character lists). -/
def isPrefixCh : List Char → List Char → Bool
  | [], _ => true
  | _ :: _, [] => false
  | a :: n, b :: h => a == b && isPrefixCh n h

/-- Python substring test `n in h` on character lists. -/
def containsSub (n : List Char) : List Char → Bool
  | [] => isPrefixCh n []
  | c :: t => isPrefixCh n (c :: t) || containsSub n t

/-- Python `str.lower()` (per-character, ASCII-faithful). -/
def pyLower (s : String) : String := String.mk (s.data.map Char.toLower)

/-- Python `str.split(sep)` for a one-character separator. -/
def splitOnChar (sep : Char) : List Char → List (List Char)
  | [] => [[]]
  | c :: t =>
    let r := splitOnChar sep t
    if c == sep then [] :: r
    else
      match r with
      | h :: rest => (c :: h) :: rest
      | [] => [[c]]

/-- Python `sep.join(parts)` on character lists. -/
def joinSep (sep : List Char) : List (List Char) → List Char
  | [] => []
  | [x] => x
  | x :: y :: t => x ++ sep ++ joinSep sep (y :: t)

/-- Python `sep.join(strings)`. -/
def pyJoin (sep : String) (l : List String) : String :=
  String.mk (joinSep sep.data (l.map String.data))

/-- Python `str.strip()` on a character list. -/
def pyStripList (l : List Char) : List Char :=
  ((l.dropWhile pyIsSpace).reverse.dropWhile pyIsSpace).reverse

/-- Python `str.strip()`. -/
def pyStrip (s : String) : String := String.mk (pyStripList s.data)

/-- Value of a decimal digit string. -/
def digitsToNat (l : List Char) : Nat :=
  l.foldl (fun a c => a * 10 + (c.toNat - '0'.toNat)) 0

/-- `re.search` driver: try a position matcher at every start position,
leftmost success wins (including the empty suffix, as in Python). -/
def searchFrom {α : Type} (f : List Char → Option α) : List Char → Option α
  | [] => f []
  | c :: t =>
    match f (c :: t) with
    | some x => some x
    | none => searchFrom f t

/-- Boolean variant of `searchFrom`. -/
def searchBool (f : List Char → Bool) : List Char → Bool
  | [] => f []
  | c :: t => f (c :: t) || searchBool f t

/-- Association-list lookup (Python `dict` membership/access). -/
def lookupA {α : Type} (k : String) : List (String × α) → Option α
  | [] => none
  | (k', v) :: t => if k = k' then some v else lookupA k t

/-! ## `legal_mapper.py`: data model -/

/-- `LegalSection` dataclass (`legal_mapper.py`). -/
structure LegalSection where
  act : String
  sectionId : String
  title : String
  description : String
  punishment : String
  bailable : Bool
  cognizable : Bool
  severity : String
deriving DecidableEq, Repr

/-- `LegalMapping` dataclass (`legal_mapper.py`); `time_limits` dict as an
association list. -/
structure LegalMapping where
  offenceType : String
  sections : List LegalSection
  investigationSteps : List String
  evidenceRequired : List String
  timeLimits : List (String × String)
deriving DecidableEq, Repr

/-! `_initialize_legal_sections`: the static statute table. -/

def bns309 : LegalSection :=
  ⟨"BNS 2023", "309", "Robbery", "Theft with use of force or threat of force",
    "Imprisonment for 3-10 years and fine", false, true, "high"⟩

def bns115 : LegalSection :=
  ⟨"BNS 2023", "115", "Hurt", "Causing bodily pain, disease or infirmity",
    "Imprisonment up to 1 year or fine up to ₹10,000", true, true, "medium"⟩

def bns351 : LegalSection :=
  ⟨"BNS 2023", "351", "Criminal Intimidation",
    "Threatening to cause injury to person, property or reputation",
    "Imprisonment up to 2 years or fine or both", true, true, "medium"⟩

def bns113 : LegalSection :=
  ⟨"BNS 2023", "113", "Grievous Hurt", "Causing grievous hurt with dangerous weapon",
    "Imprisonment for 3-7 years and fine", false, true, "high"⟩

def bns120 : LegalSection :=
  ⟨"BNS 2023", "120", "Unlawful Assembly",
    "Assembly of 5 or more persons with common object",
    "Imprisonment up to 6 months or fine or both", true, true, "medium"⟩

def scst31r : LegalSection :=
  ⟨"SC/ST Atrocities Act, 1989", "3(1)(r)", "Intentional Insult/Abuse by Caste Name",
    "Intentionally insults or intimidates with intent to humiliate on grounds of caste",
    "Imprisonment for 6 months to 5 years and fine", false, true, "high"⟩

def scst32v : LegalSection :=
  ⟨"SC/ST Atrocities Act, 1989", "3(2)(v)", "Offence Committed on Ground of Caste",
    "Commits any offence under IPC/BNS on grounds of caste",
    "Same as IPC/BNS but with enhanced punishment", false, true, "high"⟩

def arms25 : LegalSection :=
  ⟨"Arms Act, 1959", "25", "Possession of Illegal Arms",
    "Possession of arms without license",
    "Imprisonment for 1-3 years and fine", false, true, "high"⟩

def arms27 : LegalSection :=
  ⟨"Arms Act, 1959", "27", "Use of Firearm in Commission of Offence",
    "Using firearm in commission of any offence",
    "Imprisonment for 3-7 years and fine", false, true, "high"⟩

def mv66 : LegalSection :=
  ⟨"Motor Vehicles Act, 1988", "66", "Unauthorized Use of Vehicle",
    "Using vehicle for unlawful purpose",
    "Fine up to ₹5,000 or imprisonment up to 3 months", true, false, "low"⟩

/-- The nested statute dictionary from `_initialize_legal_sections`. -/
def legalSectionsTable : List (String × List (String × LegalSection)) :=
  [("BNS_2023",
     [("309", bns309), ("115", bns115), ("351", bns351), ("113", bns113), ("120", bns120)]),
   ("SC_ST_Atrocities_Act_1989", [("3_1_r", scst31r), ("3_2_v", scst32v)]),
   ("Arms_Act_1959", [("25", arms25), ("27", arms27)]),
   ("Motor_Vehicles_Act_1988", [("66", mv66)])]

/-- `_initialize_offence_mappings`: offence category → section references. -/
def offenceMappings : List (String × List String) :=
  [("caste_atrocity", ["SC_ST_Atrocities_Act_1989.3_1_r", "SC_ST_Atrocities_Act_1989.3_2_v"]),
   ("robbery", ["BNS_2023.309"]),
   ("assault", ["BNS_2023.115", "BNS_2023.113"]),
   ("criminal_intimidation", ["BNS_2023.351"]),
   ("arms_offence", ["Arms_Act_1959.25", "Arms_Act_1959.27"]),
   ("rioting", ["BNS_2023.120"]),
   ("vehicle_offence", ["Motor_Vehicles_Act_1988.66"])]

/-- Keys of the offence→section table. -/
def mappingKeys : List String := offenceMappings.map Prod.fst

/-! `_categorize_offence`: first-match-wins keyword categorization. -/

def casteKeywords : List String := ["caste", "sc", "st", "scheduled"]
def robberyKeywords : List String := ["rob", "robbery", "snatch", "theft"]
def assaultKeywords : List String := ["assault", "hurt", "beat", "attack"]
def threatKeywords : List String := ["threat", "intimidation"]
def armsKeywords : List String := ["pistol", "gun", "weapon", "firearm"]
def vehicleKeywords : List String := ["vehicle", "motorbike", "bike"]

/-- `any(keyword in offence_lower for keyword in kws)`. -/
def kwHit (kws : List String) (s : String) : Bool :=
  kws.any (fun k => containsSub k.data (pyLower s).data)

/-- `LegalSectionMapper._categorize_offence`. -/
def categorizeOffence (desc : String) : String :=
  if kwHit casteKeywords desc then "caste_atrocity"
  else if kwHit robberyKeywords desc then "robbery"
  else if kwHit assaultKeywords desc then "assault"
  else if kwHit threatKeywords desc then "criminal_intimidation"
  else if kwHit armsKeywords desc then "arms_offence"
  else if kwHit vehicleKeywords desc then "vehicle_offence"
  else "general_offence"

/-! `_get_investigation_steps`, `_get_evidence_required`, `_get_time_limits`. -/

def investigationStepsTable : List (String × List String) :=
  [("caste_atrocity",
     ["Register FIR immediately", "Inform District SP within 24 hours",
      "Conduct spot inspection", "Record statements of witnesses",
      "Collect medical evidence", "Arrest accused persons",
      "File charge sheet within 60 days"]),
   ("robbery",
     ["Register FIR immediately", "Conduct spot inspection",
      "Record statements of witnesses", "Collect CCTV footage if available",
      "Arrest accused persons", "Recover stolen property",
      "File charge sheet within 90 days"]),
   ("assault",
     ["Register FIR immediately", "Get medical examination done",
      "Record statements of witnesses", "Arrest accused persons",
      "File charge sheet within 90 days"]),
   ("arms_offence",
     ["Register FIR immediately", "Recover weapon used",
      "Get ballistic examination", "Arrest accused persons",
      "File charge sheet within 90 days"])]

def getInvestigationSteps (offenceType : String) : List String :=
  (lookupA offenceType investigationStepsTable).getD
    ["Register FIR", "Investigate", "File charge sheet"]

def evidenceRequiredTable : List (String × List String) :=
  [("caste_atrocity",
     ["Medical certificate", "Witness statements", "Caste certificate of complainant",
      "Spot inspection report", "Photographs of scene"]),
   ("robbery",
     ["Medical certificate", "Witness statements", "Recovery memo of stolen property",
      "CCTV footage", "Vehicle details"]),
   ("assault",
     ["Medical certificate", "Witness statements", "Weapon used (if any)",
      "Photographs of injuries"]),
   ("arms_offence",
     ["Weapon recovered", "Ballistic report", "Witness statements",
      "Arms license verification"])]

def getEvidenceRequired (offenceType : String) : List String :=
  (lookupA offenceType evidenceRequiredTable).getD
    ["Medical certificate", "Witness statements"]

def timeLimitsTable : List (String × List (String × String)) :=
  [("caste_atrocity",
     [("FIR_registration", "Immediately"), ("SP_notification", "Within 24 hours"),
      ("Charge_sheet", "Within 60 days"), ("Trial_completion", "Within 2 years")]),
   ("robbery",
     [("FIR_registration", "Immediately"), ("Charge_sheet", "Within 90 days"),
      ("Trial_completion", "Within 2 years")]),
   ("assault",
     [("FIR_registration", "Immediately"), ("Charge_sheet", "Within 90 days"),
      ("Trial_completion", "Within 1 year")])]

def getTimeLimits (offenceType : String) : List (String × String) :=
  (lookupA offenceType timeLimitsTable).getD
    [("FIR_registration", "Immediately"), ("Charge_sheet", "Within 90 days")]

/-! `map_offences_to_sections`. -/

/-- Input offences: either a raw string or an object carrying a `type`
attribute (the duck-typing branch of `map_offences_to_sections`). -/
inductive OffenceIn where
  | str (s : String)
  | typed (t : String)
deriving DecidableEq, Repr

/-- The `offence_type` computed for an input offence. -/
def offenceTypeOf : OffenceIn → String
  | .str s => categorizeOffence s
  | .typed t => t

/-- `ref.split('.')` resolution of a section reference against the statute
table (for every reference in `offenceMappings` the split has exactly two
parts, matching the Python tuple unpacking). -/
def resolveRef (ref : String) : Option LegalSection :=
  match splitOnChar '.' ref.data with
  | [act, sec] =>
    match lookupA (String.mk act) legalSectionsTable with
    | some secs => lookupA (String.mk sec) secs
    | none => none
  | _ => none

/-- `LegalSectionMapper.map_offences_to_sections`. -/
def mapOffencesToSections (offences : List OffenceIn) : List LegalMapping :=
  (offences.map (fun o =>
    let ot := offenceTypeOf o
    match lookupA ot offenceMappings with
    | none => []
    | some refs =>
      let secs := refs.filterMap resolveRef
      if secs.isEmpty then []
      else [⟨ot, secs, getInvestigationSteps ot, getEvidenceRequired ot, getTimeLimits ot⟩])).flatten

/-! `suggest_bail_conditions`. -/

/-- Result dict of `suggest_bail_conditions`: either
`{'bail_available': False, 'reason': ..., 'sections': [...]}` or
`{'bail_available': True, 'conditions': [...]}`. -/
inductive BailSuggestion where
  | unavailable (reason : String) (sections : List String)
  | available (conditions : List String)
deriving DecidableEq, Repr

/-- The `bail_available` field. -/
def BailSuggestion.bailAvailable : BailSuggestion → Bool
  | .unavailable _ _ => false
  | .available _ => true

/-- The `sections` field (blocking sections; absent key read as `[]`). -/
def BailSuggestion.blockedSections : BailSuggestion → List String
  | .unavailable _ s => s
  | .available _ => []

/-- `LegalSectionMapper.suggest_bail_conditions`. -/
def suggestBailConditions (sections : List LegalSection) : BailSuggestion :=
  let nonBailable := sections.filter (fun s => !s.bailable)
  if nonBailable.isEmpty then
    .available
      ["Personal bond of ₹50,000", "Two sureties of ₹25,000 each",
       "Not to tamper with evidence", "Not to contact witnesses",
       "Regular appearance in court"]
  else
    .unavailable "Non-bailable offences present" (nonBailable.map (·.sectionId))

/-! `calculate_total_punishment`. -/

/-- Position matcher for `(\d+)-?(\d+)?\s*years?` (case-sensitive), returning
the two captured groups as (min, max) with the Python fallback
`max_years = min_years` when group 2 did not participate. -/
def impMatchAt (l : List Char) : Option (Nat × Nat) :=
  let d1 := l.takeWhile Char.isDigit
  if d1.isEmpty then none
  else
    let r1 := l.dropWhile Char.isDigit
    let r2 := match r1 with
      | '-' :: t => t
      | _ => r1
    let d2 := r2.takeWhile Char.isDigit
    let r3 := (r2.dropWhile Char.isDigit).dropWhile pyIsSpace
    match r3 with
    | 'y' :: 'e' :: 'a' :: 'r' :: _ =>
      let mn := digitsToNat d1
      some (mn, if d2.isEmpty then mn else digitsToNat d2)
    | _ => none

/-- `re.search(r'(\d+)-?(\d+)?\s*years?', punishment)`. -/
def imprisonmentMatch (s : String) : Option (Nat × Nat) := searchFrom impMatchAt s.data

/-- Position matcher for `₹\s*([\d,]+)`, returning the captured group. -/
def fineMatchAt (l : List Char) : Option (List Char) :=
  match l with
  | '₹' :: t =>
    let t2 := t.dropWhile pyIsSpace
    let g := t2.takeWhile (fun c => c.isDigit || c == ',')
    if g.isEmpty then none else some g
  | _ => none

/-- `re.search(r'₹\s*([\d,]+)', punishment)`. -/
def fineCapture (s : String) : Option (List Char) := searchFrom fineMatchAt s.data

/-- `int(group.replace(',', ''))`: `none` models the `ValueError` raised when
the captured group contains no digit. -/
def pyIntCommas (g : List Char) : Option Nat :=
  let ds := g.filter (fun c => c != ',')
  if ds.isEmpty then none else some (digitsToNat ds)

/-- `f"{n:,}"`: decimal digits grouped in threes. -/
def group3 : List Char → List Char
  | a :: b :: c :: d :: t => a :: b :: c :: ',' :: group3 (d :: t)
  | l => l

def commaFmt (n : Nat) : String := String.mk ((group3 (toString n).data.reverse).reverse)

/-- Result dict of `calculate_total_punishment` (the raw fine sum is kept
alongside its formatted rendering `total_fine`). -/
structure PunishSummary where
  maxImprisonmentYears : Nat
  totalFineAmount : Nat
  totalFineDisplay : String
  overallSeverity : String
  concurrentSentences : String
deriving DecidableEq, Repr

/-- `'high' if 'high' in severity_levels else 'medium' if ... else 'low'`. -/
def overallSeverityOf (levels : List String) : String :=
  if levels.contains "high" then "high"
  else if levels.contains "medium" then "medium"
  else "low"

/-- The loop of `calculate_total_punishment`; `none` models the `ValueError`
from `int()` on a digit-free fine capture. -/
def ctpGo : List LegalSection → Nat → Nat → List String → Option PunishSummary
  | [], mx, tf, sevs =>
    some ⟨mx, tf,
      (if tf > 0 then "₹" ++ commaFmt tf else "As per court discretion"),
      overallSeverityOf sevs,
      "Sentences may run concurrently as per court discretion"⟩
  | s :: rest, mx, tf, sevs =>
    let mx' := match imprisonmentMatch s.punishment with
      | none => mx
      | some (_, upper) => max mx upper
    match fineCapture s.punishment with
    | none => ctpGo rest mx' tf (sevs ++ [s.severity])
    | some g =>
      match pyIntCommas g with
      | none => none
      | some v => ctpGo rest mx' (tf + v) (sevs ++ [s.severity])

/-- `LegalSectionMapper.calculate_total_punishment`. -/
def calculateTotalPunishment (sections : List LegalSection) : Option PunishSummary :=
  ctpGo sections 0 0 []

/-! `generate_legal_summary` and `_determine_case_type`. -/

/-- Section dict stored under `legal_sections` in the summary (drops the
`severity` field, as `generate_legal_summary` does). -/
structure SectionView where
  act : String
  sectionId : String
  title : String
  description : String
  punishment : String
  bailable : Bool
  cognizable : Bool
deriving DecidableEq, Repr

def sectionView (s : LegalSection) : SectionView :=
  ⟨s.act, s.sectionId, s.title, s.description, s.punishment, s.bailable, s.cognizable⟩

/-- The parts of `extracted_info` read by `_determine_case_type`:
`complainantCommunity = none` models an absent or falsy `'Complainant'`
entry, `some c` the value of `complainant.get('Community', '')`. -/
structure SummaryInput where
  complainantCommunity : Option String
  offences : List String
deriving DecidableEq, Repr

/-- The offence-text keyword cascade at the end of `_determine_case_type`. -/
def caseTypeFromOffences (offences : List String) : String :=
  if offences.isEmpty then "General Criminal Case"
  else
    let t := pyLower (pyJoin " " offences)
    if ["caste", "sc", "st", "scheduled"].any (fun k => containsSub k.data t.data) then
      "SC/ST Atrocity Case"
    else if ["rob", "robbery", "snatch"].any (fun k => containsSub k.data t.data) then
      "Robbery Case"
    else if ["pistol", "gun", "weapon", "firearm"].any (fun k => containsSub k.data t.data) then
      "Arms Offence Case"
    else if ["assault", "hurt", "beat"].any (fun k => containsSub k.data t.data) then
      "Assault Case"
    else "General Criminal Case"

/-- `LegalSectionMapper._determine_case_type` (community matching is
case-sensitive substring search, as in the source). -/
def determineCaseType (i : SummaryInput) : String :=
  match i.complainantCommunity with
  | some comm =>
    if comm ≠ "" &&
        (containsSub "SC".data comm.data || containsSub "ST".data comm.data ||
         containsSub "Scheduled".data comm.data) then
      "SC/ST Atrocity Case"
    else caseTypeFromOffences i.offences
  | none => caseTypeFromOffences i.offences

/-- The summary dict built by `generate_legal_summary`. -/
structure LegalSummary where
  caseType : String
  legalSections : List SectionView
  totalSections : Nat
  bailStatus : BailSuggestion
  punishmentSummary : PunishSummary
  investigationPriority : String
  specialProvisions : List String
deriving DecidableEq, Repr

/-- `LegalSectionMapper.generate_legal_summary`; `none` propagates the
`int()` `ValueError` from `calculate_total_punishment`. -/
def generateLegalSummary (i : SummaryInput) (mappings : List LegalMapping) :
    Option LegalSummary :=
  let allSections := (mappings.map (·.sections)).flatten
  match calculateTotalPunishment allSections with
  | none => none
  | some ps =>
    let scst := allSections.any (fun s => containsSub "SC/ST".data s.act.data)
    let arms := allSections.any (fun s => containsSub "Arms".data s.act.data)
    some
      { caseType := determineCaseType i
        legalSections := allSections.map sectionView
        totalSections := allSections.length
        bailStatus := suggestBailConditions allSections
        punishmentSummary := ps
        investigationPriority := if scst then "highest" else "high"
        specialProvisions :=
          (if scst then ["SC/ST Atrocities Act provisions apply"] else []) ++
          (if arms then ["Arms Act provisions apply"] else []) }

/-! ## `fir_validator.py` -/

/-- Result dict of the `_validate_*` helpers: `is_valid`, optional `error`,
`suggestions` (absent key read back as `[]`). -/
structure FieldCheck where
  isValid : Bool
  error : Option String
  suggestions : List String
deriving DecidableEq, Repr

/-- `FIRValidator._validate_name` (the `^[A-Za-z\s\.]+$` match is applied to
the stripped name, so the whole-string check below is exact). -/
def validateName (name : String) : FieldCheck :=
  let t := pyStrip name
  if t = "" then ⟨false, some "Name is empty", ["Extract name from FIR text"]⟩
  else if t.length < 2 then ⟨false, some "Name too short", ["Check if full name is extracted"]⟩
  else if !(t.data.all (fun c => c.isAlpha || pyIsSpace c || c == '.')) then
    ⟨false, some "Name contains invalid characters", ["Clean name format"]⟩
  else ⟨true, none, []⟩

/-- The runtime value found in an `age` attribute: `None`, an `int`, or a
string (the shapes the pipeline can produce). -/
inductive AgeValue where
  | noneV
  | num (n : Int)
  | strv (s : String)
deriving DecidableEq, Repr

/-- Python truthiness of an age value (`not age`). -/
def ageTruthy : AgeValue → Bool
  | .noneV => false
  | .num n => n != 0
  | .strv s => s != ""

/-- `FIRValidator._validate_age`: the `if not age` guard fires before the
`isinstance`/range checks. -/
def validateAge (age : AgeValue) : FieldCheck :=
  if !(ageTruthy age) then
    ⟨false, some "Age is missing", ["Extract age from FIR text"]⟩
  else
    match age with
    | .num n =>
      if n < 0 || n > 120 then
        ⟨false, some "Age out of reasonable range", ["Verify age extraction"]⟩
      else ⟨true, none, []⟩
    | _ => ⟨false, some "Age must be a number", ["Convert age to integer"]⟩

/-! Position matchers for the validator's date/time/vehicle regexes, written
in continuation style; `{1,2}` quantifiers try the greedy length first, as
the regex engine does. -/

/-- `\d{1,2}` followed by continuation `k`. -/
def digits12Then (k : List Char → Bool) : List Char → Bool
  | [] => false
  | a :: rest =>
    a.isDigit &&
      (match rest with
       | b :: rest2 => (b.isDigit && k rest2) || k rest
       | [] => k rest)

/-- A literal separator character followed by continuation `k`. -/
def sepThen (c : Char) (k : List Char → Bool) : List Char → Bool
  | [] => false
  | a :: t => a == c && k t

/-- `\d{2}` followed by continuation `k`. -/
def digits2Then (k : List Char → Bool) : List Char → Bool
  | a :: b :: t => a.isDigit && b.isDigit && k t
  | _ => false

/-- `\d{4}` followed by continuation `k`. -/
def digits4Then (k : List Char → Bool) : List Char → Bool
  | a :: b :: c :: d :: t => a.isDigit && b.isDigit && c.isDigit && d.isDigit && k t
  | _ => false

/-- `\s+` followed by continuation `k` (maximal munch; no observable
backtracking since no continuation here begins with a whitespace char). -/
def ws1Then (k : List Char → Bool) : List Char → Bool
  | [] => false
  | a :: t => pyIsSpace a && k (t.dropWhile pyIsSpace)

/-- `\s*` followed by continuation `k`. -/
def ws0Then (k : List Char → Bool) (l : List Char) : Bool :=
  k (l.dropWhile pyIsSpace)

/-- Python `\w` (ASCII part). -/
def pyIsWord (c : Char) : Bool := c.isAlphanum || c == '_'

/-- `\w+` followed by continuation `k`. -/
def word1Then (k : List Char → Bool) : List Char → Bool
  | [] => false
  | a :: t => pyIsWord a && k (t.dropWhile pyIsWord)

def alwaysTrue : List Char → Bool := fun _ => true

/-- `\d{1,2}-\d{1,2}-\d{4}` at a position. -/
def dateDashAt : List Char → Bool :=
  digits12Then (sepThen '-' (digits12Then (sepThen '-' (digits4Then alwaysTrue))))

/-- `\d{1,2}/\d{1,2}/\d{4}` at a position. -/
def dateSlashAt : List Char → Bool :=
  digits12Then (sepThen '/' (digits12Then (sepThen '/' (digits4Then alwaysTrue))))

/-- `\d{1,2}\s+\w+\s+\d{4}` at a position. -/
def dateWordAt : List Char → Bool :=
  digits12Then (ws1Then (word1Then (ws1Then (digits4Then alwaysTrue))))

/-- `FIRValidator._validate_date`. -/
def validateDate (date : String) : FieldCheck :=
  if date = "" then ⟨false, some "Date is missing", ["Extract date from FIR text"]⟩
  else if searchBool dateDashAt date.data || searchBool dateSlashAt date.data ||
      searchBool dateWordAt date.data then
    ⟨true, none, []⟩
  else ⟨false, some "Invalid date format", ["Use DD-MM-YYYY or DD/MM/YYYY format"]⟩

/-- `(AM|PM|am|pm)` at a position (case-sensitive alternation). -/
def ampmAt : List Char → Bool
  | 'A' :: 'M' :: _ => true
  | 'P' :: 'M' :: _ => true
  | 'a' :: 'm' :: _ => true
  | 'p' :: 'm' :: _ => true
  | _ => false

/-- `\d{1,2}:\d{2}\s*(AM|PM|am|pm)` at a position. -/
def timeAt : List Char → Bool :=
  digits12Then (sepThen ':' (digits2Then (ws0Then ampmAt)))

/-- `FIRValidator._validate_time` (empty time is valid: optional field). -/
def validateTime (time : String) : FieldCheck :=
  if time = "" then ⟨true, none, []⟩
  else if searchBool timeAt time.data then ⟨true, none, []⟩
  else ⟨false, some "Invalid time format", ["Use HH:MM AM/PM format"]⟩

/-- `[A-Z]{1,2}` followed by continuation `k`. -/
def upper12Then (k : List Char → Bool) : List Char → Bool
  | [] => false
  | a :: rest =>
    a.isUpper &&
      (match rest with
       | b :: rest2 => (b.isUpper && k rest2) || k rest
       | [] => k rest)

/-- `[A-Z]{2}` followed by continuation `k`. -/
def upper2Then (k : List Char → Bool) : List Char → Bool
  | a :: b :: t => a.isUpper && b.isUpper && k t
  | _ => false

/-- `[A-Z]{2}-\d{2}-[A-Z]{1,2}-\d{4}` at a position. -/
def vehicleNumAt : List Char → Bool :=
  upper2Then (sepThen '-' (digits2Then (sepThen '-'
    (upper12Then (sepThen '-' (digits4Then alwaysTrue))))))

/-- `FIRValidator._validate_vehicle_number` (empty is valid: optional). -/
def validateVehicleNumber (v : String) : FieldCheck :=
  if v = "" then ⟨true, none, []⟩
  else if searchBool vehicleNumAt v.data then ⟨true, none, []⟩
  else ⟨false, some "Invalid vehicle number format", ["Use format: XX-XX-XX-XXXX"]⟩

/-- `FIRValidator._validate_address`. -/
def validateAddress (a : String) : FieldCheck :=
  let t := pyStrip a
  if t = "" then ⟨false, some "Address is missing", ["Extract address from FIR text"]⟩
  else if t.length < 5 then
    ⟨false, some "Address too short", ["Check if complete address is extracted"]⟩
  else ⟨true, none, []⟩

/-- `FIRValidator._validate_place`. -/
def validatePlace (p : String) : FieldCheck :=
  if pyStrip p = "" then ⟨false, some "Place is missing", ["Extract place from FIR text"]⟩
  else ⟨true, none, []⟩

/-- `ValidationResult` dataclass; the `value` field (never read by the
aggregation) is not modelled. `suggestions = []` covers both the `None`
default and an empty list, which the aggregation treats identically. -/
structure VResult where
  field : String
  isValid : Bool
  errorMessage : Option String
  suggestions : List String
deriving DecidableEq, Repr

def mkVR (fieldName : String) (fc : FieldCheck) : VResult :=
  ⟨fieldName, fc.isValid, fc.error, fc.suggestions⟩

/-! The `extracted_info` shape consumed by `validate_complete_fir`:
`Option` fields model `hasattr`/key presence. -/

structure ComplainantObj where
  name : Option String
  age : Option AgeValue
  address : Option String
deriving DecidableEq, Repr

structure AccusedObj where
  name : Option String
deriving DecidableEq, Repr

structure IncidentInfo where
  date : Option String
  time : Option String
  place : Option String
deriving DecidableEq, Repr

structure OffenceObj where
  otype : Option String
deriving DecidableEq, Repr

structure WeaponObj where
  wtype : Option String
deriving DecidableEq, Repr

structure VehicleObj where
  number : Option String
deriving DecidableEq, Repr

structure ExtractedInput where
  complainant : Option ComplainantObj
  accused : List AccusedObj
  incident : IncidentInfo
  offences : List OffenceObj
  witnesses : List String
  weapons : List WeaponObj
  vehicles : List VehicleObj
deriving DecidableEq, Repr

/-- `FIRValidator.validate_complainant`. -/
def validateComplainant : Option ComplainantObj → List VResult
  | none => [⟨"complainant", false, some "Complainant information is missing", []⟩]
  | some c =>
    (match c.name with
     | some n => [mkVR "complainant.name" (validateName n)]
     | none => []) ++
    (match c.age with
     | some a => [mkVR "complainant.age" (validateAge a)]
     | none => []) ++
    (match c.address with
     | some a => [mkVR "complainant.address" (validateAddress a)]
     | none => [])

/-- `FIRValidator.validate_accused`. -/
def validateAccused (accusedList : List AccusedObj) : List VResult :=
  if accusedList.isEmpty then
    [⟨"accused", false, some "No accused persons identified",
      ["Check if accused details are mentioned in FIR"]⟩]
  else
    accusedList.enum.map (fun (i, a) =>
      let fieldName := "accused[" ++ toString i ++ "].name"
      match a.name with
      | some n =>
        if n = "" then
          ⟨fieldName, false, some "Accused name is missing",
            ["Extract accused name from FIR text"]⟩
        else mkVR fieldName (validateName n)
      | none =>
        ⟨fieldName, false, some "Accused name is missing",
          ["Extract accused name from FIR text"]⟩)

/-- `FIRValidator.validate_incident_details`. -/
def validateIncidentDetails (incident : IncidentInfo) : List VResult :=
  (match incident.date with
   | some d => [mkVR "incident.date" (validateDate d)]
   | none => [⟨"incident.date", false, some "Incident date is missing",
       ["Extract date from FIR text"]⟩]) ++
  (match incident.time with
   | some t => [mkVR "incident.time" (validateTime t)]
   | none => []) ++
  (match incident.place with
   | some p => [mkVR "incident.place" (validatePlace p)]
   | none => [⟨"incident.place", false, some "Incident place is missing",
       ["Extract place from FIR text"]⟩])

/-- `FIRValidator.validate_offences`. -/
def validateOffences (offences : List OffenceObj) : List VResult :=
  if offences.isEmpty then
    [⟨"offences", false, some "No offences identified",
      ["Review FIR text for offence descriptions"]⟩]
  else
    offences.enum.map (fun (i, o) =>
      let fieldName := "offences[" ++ toString i ++ "].type"
      match o.otype with
      | some t =>
        if t = "" then
          ⟨fieldName, false, some "Offence type is missing",
            ["Categorize offence from description"]⟩
        else ⟨fieldName, true, none, []⟩
      | none =>
        ⟨fieldName, false, some "Offence type is missing",
          ["Categorize offence from description"]⟩)

/-- `FIRValidator.validate_evidence`. -/
def validateEvidence (e : ExtractedInput) : List VResult :=
  (if e.witnesses.isEmpty then
    [⟨"witnesses", false, some "No witnesses identified",
      ["Look for witness names in FIR text"]⟩]
   else [⟨"witnesses", true, none, []⟩]) ++
  (e.weapons.enum.filterMap (fun (i, w) =>
    match w.wtype with
    | some t =>
      if t = "" then none
      else some ⟨"weapons[" ++ toString i ++ "].type", true, none, []⟩
    | none => none)) ++
  (e.vehicles.enum.filterMap (fun (i, v) =>
    match v.number with
    | some n =>
      if n = "" then none
      else some (mkVR ("vehicles[" ++ toString i ++ "].number") (validateVehicleNumber n))
    | none => none))

/-- All findings collected by `validate_complete_fir`, in order. -/
def allResults (e : ExtractedInput) : List VResult :=
  validateComplainant e.complainant ++ validateAccused e.accused ++
  validateIncidentDetails e.incident ++ validateOffences e.offences ++
  validateEvidence e

/-- `ValidationSummary` dataclass; the score is over `ℚ` (Python `float`);
`suggestions` is `list(set(...))`, whose element order is unspecified in
Python — modelled as order-preserving deduplication. -/
structure ValidationSummary where
  isValid : Bool
  completenessScore : ℚ
  criticalErrors : List String
  warnings : List String
  suggestions : List String
deriving DecidableEq, Repr

/-- `result.error_message` truthiness filter used for `critical_errors`. -/
def criticalOf (r : VResult) : Option String :=
  if r.isValid then none
  else
    match r.errorMessage with
    | some m => if m = "" then none else some m
    | none => none

/-- `FIRValidator.validate_complete_fir`. -/
def validateCompleteFir (e : ExtractedInput) : ValidationSummary :=
  let rs := allResults e
  let total := rs.length
  let valid := (rs.filter (·.isValid)).length
  let score : ℚ := if 0 < total then (valid : ℚ) / (total : ℚ) * 100 else 0
  let crit := rs.filterMap criticalOf
  let sugg := rs.foldl (fun acc r => if r.suggestions.isEmpty then acc else acc ++ r.suggestions) []
  ⟨crit.isEmpty, score, crit, [], sugg.dedup⟩

/-! ## `information_extractor.py`: `extract_witnesses` -/

/-- Case-insensitive literal match (needle given in lowercase, as in the
`re.IGNORECASE` patterns); returns the remaining text. -/
def matchCI : List Char → List Char → Option (List Char)
  | [], h => some h
  | _ :: _, [] => none
  | a :: n, b :: h => if a == b.toLower then matchCI n h else none

/-- `\s+` followed by a literal (used before `by`): at least one whitespace
character, maximal munch — exact in that spot because the continuation is a
letter, which can never stand at a position backtracking would give back
(a whitespace character). -/
def wsDrop1 : List Char → Option (List Char)
  | [] => none
  | c :: t => if pyIsSpace c then some (t.dropWhile pyIsSpace) else none

/-- `\s+([^,]+)` at a position, with the engine's backtracking: greedy `\s+`
first takes the whole whitespace run and `([^,]+)` greedily captures the
following non-comma run. When that capture would be empty (the whitespace
run is followed by a comma or the end of the text), the engine gives one
whitespace character back — whitespace is itself a non-comma character — so
the pattern still matches, with the capture being exactly that last
whitespace character, whenever the run has at least two characters; a
one-character run cannot be given back (`\s+` needs one) and the position
fails. -/
def wsCapNonComma : List Char → Option (List Char)
  | [] => none
  | c :: t =>
    if pyIsSpace c then
      let rest := t.dropWhile pyIsSpace
      let cap := rest.takeWhile (fun x => x != ',')
      if !cap.isEmpty then some cap
      else
        match (t.takeWhile pyIsSpace).getLast? with
        | some lastWs => some [lastWs]
        | none => none
    else none

/-- `witnessed\s+by\s+([^,]+)` at a position. -/
def witnessedByAt (l : List Char) : Option (List Char) :=
  (matchCI "witnessed".data l).bind fun r1 =>
  (wsDrop1 r1).bind fun r2 =>
  (matchCI "by".data r2).bind fun r3 => wsCapNonComma r3

/-- `witnesses?\s+([^,]+)` at a position: after the literal `witnesse` the
greedy optional `s` is taken exactly when the next character is an `s`
(backtracking over `s?` cannot help, since an `s` is never whitespace). -/
def witnessesAt (l : List Char) : Option (List Char) :=
  (matchCI "witnesse".data l).bind fun r =>
    match r with
    | c :: t =>
      if c.toLower == 's' then wsCapNonComma t
      else wsCapNonComma (c :: t)
    | [] => none

/-- `seen\s+by\s+([^,]+)` at a position. -/
def seenByAt (l : List Char) : Option (List Char) :=
  (matchCI "seen".data l).bind fun r1 =>
  (wsDrop1 r1).bind fun r2 =>
  (matchCI "by".data r2).bind fun r3 => wsCapNonComma r3

/-- `observed\s+by\s+([^,]+)` at a position. -/
def observedByAt (l : List Char) : Option (List Char) :=
  (matchCI "observed".data l).bind fun r1 =>
  (wsDrop1 r1).bind fun r2 =>
  (matchCI "by".data r2).bind fun r3 => wsCapNonComma r3

/-- `[name.strip() for name in witness_text.split(',')]`. -/
def splitStripNames (cap : List Char) : List String :=
  (splitOnChar ',' cap).map (fun l => pyStrip (String.mk l))

/-- The names contributed by one witness pattern: the comma-split, stripped
clause of its first match, or `[]` when the pattern does not match. -/
def witnessPatternNames (m : List Char → Option (List Char)) (text : String) : List String :=
  match searchFrom m text.data with
  | some cap => splitStripNames cap
  | none => []

/-- The ordered pattern list of `extract_witnesses`. -/
def witnessMatchers : List (List Char → Option (List Char)) :=
  [witnessedByAt, witnessesAt, seenByAt, observedByAt]

/-- `FIRInformationExtractor.extract_witnesses`: every pattern is searched
and each match extends the accumulated list (the loop has no break). -/
def extractWitnesses (text : String) : List String :=
  witnessMatchers.foldl (fun acc m => acc ++ witnessPatternNames m text) []

/-! ## `fir_validator.py`: `generate_validation_report` -/

/-- Python banker's rounding to an integer (`round` tie-to-even), on exact
rationals. -/
def roundHalfEven (x : ℚ) : ℤ :=
  let f := ⌊x⌋
  let r := x - (f : ℚ)
  if r < 1 / 2 then f
  else if 1 / 2 < r then f + 1
  else if f % 2 = 0 then f else f + 1

/-- Python `round(x, 2)` modelled on exact rationals. -/
def pyRound2 (q : ℚ) : ℚ := (roundHalfEven (q * 100) : ℚ) / 100

/-- Python `repr` of a simple string (no quote/backslash escaping is needed
for the fixed error-message literals this is applied to). -/
def pyReprStr (s : String) : String :=
  String.mk ('\'' :: s.data ++ ['\''])

/-- Python `str(list_of_strings)`. -/
def pyStrList (l : List String) : String :=
  "[" ++ pyJoin ", " (l.map pyReprStr) ++ "]"

/-- `FIRValidator._generate_recommendations`. -/
def validatorRecommendations (vs : ValidationSummary) : List String :=
  (if vs.completenessScore < 70 then ["Review FIR text for missing information"] else []) ++
  (if vs.criticalErrors.isEmpty then [] else ["Address critical errors before proceeding"]) ++
  (if containsSub "complainant".data (pyStrList vs.criticalErrors).data then
    ["Ensure complainant details are complete"] else []) ++
  (if containsSub "accused".data (pyStrList vs.criticalErrors).data then
    ["Verify accused person details"] else []) ++
  (if containsSub "incident".data (pyStrList vs.criticalErrors).data then
    ["Complete incident details"] else [])

/-- `FIRValidator._calculate_quality_score`. -/
def qualityScoreOf (vs : ValidationSummary) : String :=
  if 90 ≤ vs.completenessScore then "Excellent"
  else if 80 ≤ vs.completenessScore then "Good"
  else if 70 ≤ vs.completenessScore then "Fair"
  else if 60 ≤ vs.completenessScore then "Poor"
  else "Very Poor"

/-- The report dict of `generate_validation_report`. -/
structure ValidationReport where
  vsIsValid : Bool
  vsCompletenessScore : ℚ
  vsCriticalErrorsCount : Nat
  vsSuggestionsCount : Nat
  criticalErrors : List String
  suggestions : List String
  recommendations : List String
  qualityScore : String
deriving DecidableEq, Repr

/-- `FIRValidator.generate_validation_report`. -/
def generateValidationReport (e : ExtractedInput) : ValidationReport :=
  let vs := validateCompleteFir e
  ⟨vs.isValid, pyRound2 vs.completenessScore, vs.criticalErrors.length,
   vs.suggestions.length, vs.criticalErrors, vs.suggestions,
   validatorRecommendations vs, qualityScoreOf vs⟩

/-! ## `main_analyzer.py`: `_generate_final_report` -/

/-- The dict returned by `BilingualTextProcessor.detect_language_mix`
(ratios over `ℚ` for Python floats). -/
structure LanguageInfo where
  teluguRatio : ℚ
  englishRatio : ℚ
  isMixed : Bool
  primaryLanguage : String
deriving DecidableEq, Repr

/-- The keys of `process_fir_text`'s result that `_generate_final_report`
reads (`normalized_text`, `processed_text` and `entities` are produced by
the text processor but never read when assembling the report; the two text
fields are carried, `entities` is left out). Dicts are association lists. -/
structure ProcessedText where
  originalText : String
  normalizedText : String
  processedText : String
  languageInfo : LanguageInfo
  teluguTerms : List (String × String)
  segments : List (String × String)
deriving DecidableEq, Repr

/-- `analysis_metadata` in the final report. -/
structure AnalysisMetadata where
  timestamp : String
  version : String
  languageDetected : String
  isMixedLanguage : Bool
deriving DecidableEq, Repr

/-- `text_processing` in the final report. -/
structure TextProcessingOut where
  originalText : String
  languageComposition : LanguageInfo
  teluguTermsFound : List (String × String)
  textSegments : List (String × String)
deriving DecidableEq, Repr

/-- `legal_analysis` in the final report. -/
structure LegalAnalysisOut where
  caseType : String
  legalSections : List SectionView
  totalSections : Nat
  bailStatus : BailSuggestion
  punishmentSummary : PunishSummary
  investigationPriority : String
  specialProvisions : List String
deriving DecidableEq, Repr

/-- Truthiness of the `legal_research` keys that
`FIRAnalyzer._generate_recommendations` reads. -/
structure ResearchFlags where
  localKbUsed : Bool
  webSearchUsed : Bool
  localUpdates : Bool
  localPrecedents : Bool
  webLegalUpdates : Bool
  webCasePrecedents : Bool
deriving DecidableEq, Repr

/-- The `legal_research` dict: the recommendation-relevant flags together
with the research payload produced by the external RAG/web collaborators. -/
structure ResearchData (R : Type) where
  flags : ResearchFlags
  payload : R
deriving DecidableEq, Repr

/-- `FIRAnalyzer._generate_recommendations`. -/
def analyzerRecommendations (ls : LegalSummary) (vr : ValidationReport)
    (rf : ResearchFlags) : List String :=
  (if vr.vsCompletenessScore < 80 then
    ["Review FIR text for missing critical information"] else []) ++
  (if containsSub "SC/ST".data ls.caseType.data ||
      containsSub "Caste".data ls.caseType.data then
    ["Immediate registration of FIR under SC/ST Atrocities Act",
     "Inform District SP within 24 hours",
     "Appoint Special Public Prosecutor"] else []) ++
  (if ls.investigationPriority = "highest" then
    ["Prioritize investigation - high priority case"] else []) ++
  (if ls.bailStatus.bailAvailable then []
   else ["Non-bailable offences present - immediate arrest required"]) ++
  (if rf.localKbUsed then
    ["Local knowledge base provided comprehensive legal context"] else []) ++
  (if rf.webSearchUsed then
    ["Additional web research conducted for latest updates"] else []) ++
  (if rf.localUpdates || rf.webLegalUpdates then
    ["Check for recent legal amendments affecting this case"] else []) ++
  (if rf.localPrecedents || rf.webCasePrecedents then
    ["Review relevant case precedents for investigation guidance"] else [])

/-- The final report dict; `E` is the (externally produced or fallback)
extracted-information payload and `R` the legal-research payload, both
copied verbatim by `_generate_final_report` after dataclass→dict
conversion. -/
structure FinalReport (E R : Type) where
  analysisMetadata : AnalysisMetadata
  textProcessing : TextProcessingOut
  extractedInformation : E
  legalAnalysis : LegalAnalysisOut
  legalMappings : List LegalMapping
  validationReport : ValidationReport
  legalResearch : ResearchData R
  recommendations : List String
  exportJson : Bool
  exportPdf : Bool
  exportWord : Bool
deriving DecidableEq, Repr

/-- `FIRAnalyzer._generate_final_report`; `now` is the value of
`datetime.now().isoformat()` read from the system clock while the report
is being built. -/
def generateFinalReport {E R : Type} (pt : ProcessedText) (ei : E)
    (lm : List LegalMapping) (ls : LegalSummary) (vr : ValidationReport)
    (lr : ResearchData R) (now : String) : FinalReport E R :=
  { analysisMetadata :=
      ⟨now, "1.0.0", pt.languageInfo.primaryLanguage, pt.languageInfo.isMixed⟩
    textProcessing := ⟨pt.originalText, pt.languageInfo, pt.teluguTerms, pt.segments⟩
    extractedInformation := ei
    legalAnalysis :=
      ⟨ls.caseType, ls.legalSections, ls.totalSections, ls.bailStatus,
       ls.punishmentSummary, ls.investigationPriority, ls.specialProvisions⟩
    legalMappings := lm
    validationReport := vr
    legalResearch := lr
    recommendations := analyzerRecommendations ls vr lr.flags
    exportJson := true
    exportPdf := true
    exportWord := true }

/-- Replace the clock reading recorded in a report's metadata. -/
def withTimestamp {E R : Type} (r : FinalReport E R) (t : String) : FinalReport E R :=
  { r with analysisMetadata := { r.analysisMetadata with timestamp := t } }

/-! ## Theorems -/

theorem lookupA_eq_none_of_not_mem {α : Type} (k : String) :
    ∀ l : List (String × α), k ∉ l.map Prod.fst → lookupA k l = none := by
  intro l
  induction l with
  | nil => intro _; rfl
  | cons p t ih =>
    intro h
    simp only [List.map_cons, List.mem_cons, not_or] at h
    simp only [lookupA, if_neg h.1]
    exact ih h.2

/-- C1: every offence category that is a key of the static offence→section
table yields exactly one `LegalMapping` with a non-empty section list whose
investigation steps, evidence list and time limits are the mapper's table
entries (with their generic fallbacks); a category that is not a key yields
no mapping at all. -/
theorem statute_mapping_completeness :
    (∀ c, c ∈ mappingKeys →
      ∃ m, mapOffencesToSections [OffenceIn.typed c] = [m] ∧ m.sections ≠ [] ∧
        m.offenceType = c ∧ m.investigationSteps = getInvestigationSteps c ∧
        m.evidenceRequired = getEvidenceRequired c ∧ m.timeLimits = getTimeLimits c) ∧
    (∀ c, c ∉ mappingKeys → mapOffencesToSections [OffenceIn.typed c] = []) := by
  constructor
  · intro c hc
    simp only [mappingKeys, offenceMappings, List.map_cons, List.map_nil, List.mem_cons,
      List.not_mem_nil, or_false] at hc
    rcases hc with rfl | rfl | rfl | rfl | rfl | rfl | rfl
    · exact ⟨⟨"caste_atrocity", [scst31r, scst32v], getInvestigationSteps "caste_atrocity",
        getEvidenceRequired "caste_atrocity", getTimeLimits "caste_atrocity"⟩,
        by decide, by decide, rfl, rfl, rfl, rfl⟩
    · exact ⟨⟨"robbery", [bns309], getInvestigationSteps "robbery",
        getEvidenceRequired "robbery", getTimeLimits "robbery"⟩,
        by decide, by decide, rfl, rfl, rfl, rfl⟩
    · exact ⟨⟨"assault", [bns115, bns113], getInvestigationSteps "assault",
        getEvidenceRequired "assault", getTimeLimits "assault"⟩,
        by decide, by decide, rfl, rfl, rfl, rfl⟩
    · exact ⟨⟨"criminal_intimidation", [bns351], getInvestigationSteps "criminal_intimidation",
        getEvidenceRequired "criminal_intimidation", getTimeLimits "criminal_intimidation"⟩,
        by decide, by decide, rfl, rfl, rfl, rfl⟩
    · exact ⟨⟨"arms_offence", [arms25, arms27], getInvestigationSteps "arms_offence",
        getEvidenceRequired "arms_offence", getTimeLimits "arms_offence"⟩,
        by decide, by decide, rfl, rfl, rfl, rfl⟩
    · exact ⟨⟨"rioting", [bns120], getInvestigationSteps "rioting",
        getEvidenceRequired "rioting", getTimeLimits "rioting"⟩,
        by decide, by decide, rfl, rfl, rfl, rfl⟩
    · exact ⟨⟨"vehicle_offence", [mv66], getInvestigationSteps "vehicle_offence",
        getEvidenceRequired "vehicle_offence", getTimeLimits "vehicle_offence"⟩,
        by decide, by decide, rfl, rfl, rfl, rfl⟩
  · intro c hc
    have h : lookupA c offenceMappings = none :=
      lookupA_eq_none_of_not_mem c offenceMappings (by simpa [mappingKeys] using hc)
    simp [mapOffencesToSections, offenceTypeOf, h]

/-- C2: bail is reported unavailable (with every non-bailable section's id
listed) exactly when some section is non-bailable; otherwise the fixed
standard bail-conditions template is returned verbatim. -/
theorem bail_determination (ss : List LegalSection) :
    ((suggestBailConditions ss).bailAvailable = false ↔ ∃ s ∈ ss, s.bailable = false) ∧
    (∀ s ∈ ss, s.bailable = false →
      s.sectionId ∈ (suggestBailConditions ss).blockedSections) ∧
    ((∀ s ∈ ss, s.bailable = true) →
      suggestBailConditions ss =
        .available
          ["Personal bond of ₹50,000", "Two sureties of ₹25,000 each",
           "Not to tamper with evidence", "Not to contact witnesses",
           "Regular appearance in court"]) := by
  by_cases h : (ss.filter (fun s => !s.bailable)).isEmpty
  · rw [List.isEmpty_iff, List.filter_eq_nil_iff] at h
    refine ⟨?_, ?_, ?_⟩
    · simp only [suggestBailConditions, List.isEmpty_iff, List.filter_eq_nil_iff]
      rw [if_pos (by simpa using h)]
      simp only [BailSuggestion.bailAvailable]
      constructor
      · intro hfalse; cases hfalse
      · rintro ⟨s, hs, hb⟩
        have := h s hs
        simp [hb] at this
    · intro s hs hb
      have := h s hs
      simp [hb] at this
    · intro _
      simp only [suggestBailConditions]
      rw [if_pos (by simpa [List.isEmpty_iff, List.filter_eq_nil_iff] using h)]
  · rw [List.isEmpty_iff] at h
    have hmem : ∃ s ∈ ss, s.bailable = false := by
      rcases List.exists_mem_of_ne_nil _ h with ⟨s, hs⟩
      rcases List.mem_filter.mp hs with ⟨hss, hb⟩
      exact ⟨s, hss, by simpa using hb⟩
    refine ⟨?_, ?_, ?_⟩
    · simp only [suggestBailConditions, List.isEmpty_iff]
      rw [if_neg h]
      simpa [BailSuggestion.bailAvailable] using hmem
    · intro s hs hb
      simp only [suggestBailConditions, List.isEmpty_iff]
      rw [if_neg h]
      simp only [BailSuggestion.blockedSections, List.mem_map]
      exact ⟨s, List.mem_filter.mpr ⟨hs, by simp [hb]⟩, rfl⟩
    · intro hall
      rcases hmem with ⟨s, hs, hb⟩
      have := hall s hs
      rw [this] at hb
      cases hb

/-- C5: offence categorization is first-match-wins in the fixed keyword
order caste → robbery → assault → intimidation → arms → vehicle, with
`general_offence` for a string matching no keyword group. -/
theorem offence_categorization_order (s : String) :
    (kwHit casteKeywords s = true → categorizeOffence s = "caste_atrocity") ∧
    (kwHit casteKeywords s = false → kwHit robberyKeywords s = true →
      categorizeOffence s = "robbery") ∧
    (kwHit casteKeywords s = false → kwHit robberyKeywords s = false →
      kwHit assaultKeywords s = true → categorizeOffence s = "assault") ∧
    (kwHit casteKeywords s = false → kwHit robberyKeywords s = false →
      kwHit assaultKeywords s = false → kwHit threatKeywords s = true →
      categorizeOffence s = "criminal_intimidation") ∧
    (kwHit casteKeywords s = false → kwHit robberyKeywords s = false →
      kwHit assaultKeywords s = false → kwHit threatKeywords s = false →
      kwHit armsKeywords s = true → categorizeOffence s = "arms_offence") ∧
    (kwHit casteKeywords s = false → kwHit robberyKeywords s = false →
      kwHit assaultKeywords s = false → kwHit threatKeywords s = false →
      kwHit armsKeywords s = false → kwHit vehicleKeywords s = true →
      categorizeOffence s = "vehicle_offence") ∧
    (kwHit casteKeywords s = false → kwHit robberyKeywords s = false →
      kwHit assaultKeywords s = false → kwHit threatKeywords s = false →
      kwHit armsKeywords s = false → kwHit vehicleKeywords s = false →
      categorizeOffence s = "general_offence") := by
  refine ⟨?_, ?_, ?_, ?_, ?_, ?_, ?_⟩ <;> intros <;> simp_all [categorizeOffence]

/-- C8: the age validator rejects a present integer age of 0 as "missing"
(Python `not age` is true for `0`), although the code's own range check
`age < 0 or age > 120` treats 0 as in range; every non-zero integer age is
accepted exactly when it lies in [0, 120]. -/
theorem age_validation_at_zero :
    validateAge (.num 0) =
      ⟨false, some "Age is missing", ["Extract age from FIR text"]⟩ ∧
    (∀ n : Int, n ≠ 0 →
      ((validateAge (.num n)).isValid = true ↔ 0 ≤ n ∧ n ≤ 120)) := by
  refine ⟨by decide, ?_⟩
  intro n hn
  have ht : ageTruthy (.num n) = true := by
    simp [ageTruthy, hn]
  simp only [validateAge, ht, Bool.not_true, Bool.false_eq_true, if_false]
  by_cases h : n < 0 || n > 120
  · rw [if_pos h]
    simp only [Bool.or_eq_true, decide_eq_true_eq] at h
    constructor
    · intro hc; cases hc
    · rintro ⟨h1, h2⟩
      rcases h with h | h
      · exact absurd h1 (not_le.mpr h)
      · exact absurd h2 (not_le.mpr h)
  · rw [if_neg h]
    simp only [Bool.or_eq_true, decide_eq_true_eq, not_or, not_lt] at h
    simpa using h

/-! Helper accessors for the punishment-aggregation statement: the quantity
the regex scan extracts from a single section's punishment text. -/

/-- Upper bound of the first `N-M years` / `N years` match, 0 when none. -/
def sectionImprisonmentUpper (s : LegalSection) : Nat :=
  match imprisonmentMatch s.punishment with
  | none => 0
  | some (_, upper) => upper

/-- First matched `₹` amount of a section's punishment text, 0 when none. -/
def sectionFineAmount (s : LegalSection) : Nat :=
  match fineCapture s.punishment with
  | none => 0
  | some g => (pyIntCommas g).getD 0

theorem ctpGo_spec :
    ∀ (ss : List LegalSection) (mx tf : Nat) (sevs : List String) (r : PunishSummary),
      ctpGo ss mx tf sevs = some r →
      r.maxImprisonmentYears = (ss.map sectionImprisonmentUpper).foldl max mx ∧
      r.totalFineAmount = tf + (ss.map sectionFineAmount).sum ∧
      r.overallSeverity = overallSeverityOf (sevs ++ ss.map LegalSection.severity) := by
  intro ss
  induction ss with
  | nil =>
    intro mx tf sevs r h
    simp only [ctpGo, Option.some.injEq] at h
    subst h
    simp
  | cons s rest ih =>
    intro mx tf sevs r h
    simp only [ctpGo] at h
    have hmx : (match imprisonmentMatch s.punishment with
        | none => mx
        | some (_, upper) => max mx upper) = max mx (sectionImprisonmentUpper s) := by
      rcases him : imprisonmentMatch s.punishment with _ | ⟨lo, hi⟩ <;>
        simp [sectionImprisonmentUpper, him]
    rw [hmx] at h
    rcases hf : fineCapture s.punishment with _ | g <;> simp only [hf] at h
    · have hfs : sectionFineAmount s = 0 := by simp [sectionFineAmount, hf]
      obtain ⟨h1, h2, h3⟩ := ih _ _ _ _ h
      refine ⟨by simpa using h1, ?_, by simpa [List.append_assoc] using h3⟩
      rw [List.map_cons, List.sum_cons, hfs]
      omega
    · rcases hv : pyIntCommas g with _ | v <;> simp only [hv] at h
      · cases h
      · have hfs : sectionFineAmount s = v := by simp [sectionFineAmount, hf, hv]
        obtain ⟨h1, h2, h3⟩ := ih _ _ _ _ h
        refine ⟨by simpa using h1, ?_, by simpa [List.append_assoc] using h3⟩
        rw [List.map_cons, List.sum_cons, hfs]
        omega

/-- C6: punishment aggregation returns the maximum over all sections of the
upper bound of the first imprisonment-years match, the sum of each
section's first matched fine amount, and the highest severity tier present
(high > medium > low). -/
theorem punishment_aggregation (ss : List LegalSection) (r : PunishSummary)
    (h : calculateTotalPunishment ss = some r) :
    r.maxImprisonmentYears = (ss.map sectionImprisonmentUpper).foldl max 0 ∧
    r.totalFineAmount = (ss.map sectionFineAmount).sum ∧
    r.overallSeverity = overallSeverityOf (ss.map LegalSection.severity) := by
  simpa using ctpGo_spec ss 0 0 [] r h

theorem punishment_aggregation_witness :
    (⟨10, 10000, "₹10,000", "high",
      "Sentences may run concurrently as per court discretion"⟩ :
        PunishSummary).maxImprisonmentYears =
      ([bns309, bns115].map sectionImprisonmentUpper).foldl max 0 ∧
    (⟨10, 10000, "₹10,000", "high",
      "Sentences may run concurrently as per court discretion"⟩ :
        PunishSummary).totalFineAmount =
      ([bns309, bns115].map sectionFineAmount).sum ∧
    (⟨10, 10000, "₹10,000", "high",
      "Sentences may run concurrently as per court discretion"⟩ :
        PunishSummary).overallSeverity =
      overallSeverityOf ([bns309, bns115].map LegalSection.severity) :=
  punishment_aggregation [bns309, bns115]
    ⟨10, 10000, "₹10,000", "high",
      "Sentences may run concurrently as per court discretion"⟩ (by decide)

/-- C10: bail determination on an empty section list reports bail available
with the standard template, and a legal summary over zero mappings reports
the same, so a case with no mapped sections is always reported bailable. -/
theorem empty_mapping_bailable (i : SummaryInput) :
    suggestBailConditions [] =
      .available
        ["Personal bond of ₹50,000", "Two sureties of ₹25,000 each",
         "Not to tamper with evidence", "Not to contact witnesses",
         "Regular appearance in court"] ∧
    (generateLegalSummary i []).map LegalSummary.bailStatus =
      some (.available
        ["Personal bond of ₹50,000", "Two sureties of ₹25,000 each",
         "Not to tamper with evidence", "Not to contact witnesses",
         "Regular appearance in court"]) :=
  ⟨rfl, rfl⟩

/-- The empty extraction result: no complainant, no accused, no incident
fields, no offences, no evidence. -/
def emptyExtracted : ExtractedInput := ⟨none, [], ⟨none, none, none⟩, [], [], [], []⟩

/-- C3 counterexample: on the empty extraction result the completeness score
is 0 although six findings were evaluated (all of them invalid), so
"score = 0 exactly when zero findings were evaluated" fails. -/
theorem completeness_zero_with_findings :
    (validateCompleteFir emptyExtracted).completenessScore = 0 ∧
    (allResults emptyExtracted).length = 6 ∧ (allResults emptyExtracted).length ≠ 0 := by
  have h1 : (allResults emptyExtracted).length = 6 := by decide
  have h2 : ((allResults emptyExtracted).filter (·.isValid)).length = 0 := by decide
  refine ⟨?_, h1, by decide⟩
  simp only [validateCompleteFir]
  rw [h1, h2]
  norm_num

/-- C3 amended: the completeness score equals validFindings/totalFindings×100
(at least one finding is always evaluated, so there is no division by zero),
lies in [0, 100], is 0 exactly when no finding is valid, and is 100 exactly
when every finding is valid. -/
theorem completeness_score_spec (e : ExtractedInput) :
    0 ≤ (validateCompleteFir e).completenessScore ∧
    (validateCompleteFir e).completenessScore ≤ 100 ∧
    1 ≤ (allResults e).length ∧
    (validateCompleteFir e).completenessScore =
      (((allResults e).filter (·.isValid)).length : ℚ) / ((allResults e).length : ℚ) * 100 ∧
    ((validateCompleteFir e).completenessScore = 0 ↔
      ((allResults e).filter (·.isValid)).length = 0) ∧
    ((validateCompleteFir e).completenessScore = 100 ↔
      ((allResults e).filter (·.isValid)).length = (allResults e).length) := by
  have hacc : 1 ≤ (validateAccused e.accused).length := by
    cases hA : e.accused with
    | nil => simp [validateAccused]
    | cons a t => simp [validateAccused]
  have htot : 1 ≤ (allResults e).length := by
    have hlen : (allResults e).length =
        (validateComplainant e.complainant).length + ((validateAccused e.accused).length +
        ((validateIncidentDetails e.incident).length + ((validateOffences e.offences).length +
        (validateEvidence e).length))) := by
      simp [allResults]
    omega
  have htQ : (0 : ℚ) < ((allResults e).length : ℚ) := by
    exact_mod_cast Nat.lt_of_lt_of_le Nat.zero_lt_one htot
  have hle : ((allResults e).filter (·.isValid)).length ≤ (allResults e).length :=
    List.length_filter_le _ _
  have hleQ : (((allResults e).filter (·.isValid)).length : ℚ) ≤ ((allResults e).length : ℚ) := by
    exact_mod_cast hle
  have hscore : (validateCompleteFir e).completenessScore =
      (((allResults e).filter (·.isValid)).length : ℚ) / ((allResults e).length : ℚ) * 100 := by
    simp only [validateCompleteFir]
    rw [if_pos (by omega : 0 < (allResults e).length)]
  refine ⟨?_, ?_, htot, hscore, ?_, ?_⟩
  · rw [hscore]; positivity
  · rw [hscore]
    have hdiv : (((allResults e).filter (·.isValid)).length : ℚ) /
        ((allResults e).length : ℚ) ≤ 1 := (div_le_one htQ).mpr hleQ
    nlinarith [hdiv]
  · rw [hscore]
    constructor
    · intro h0
      have hq : (((allResults e).filter (·.isValid)).length : ℚ) /
          ((allResults e).length : ℚ) = 0 := by
        rcases mul_eq_zero.mp h0 with h | h
        · exact h
        · norm_num at h
      rcases div_eq_zero_iff.mp hq with h | h
      · exact_mod_cast h
      · exact absurd h (ne_of_gt htQ)
    · intro hv
      rw [hv]
      norm_num
  · rw [hscore]
    constructor
    · intro h100
      have hq : (((allResults e).filter (·.isValid)).length : ℚ) /
          ((allResults e).length : ℚ) = 1 := by linarith
      have := (div_eq_one_iff_eq (ne_of_gt htQ)).mp hq
      exact_mod_cast this
    · intro hvt
      rw [hvt, div_self (ne_of_gt htQ)]
      norm_num

/-- C7 counterexample: on "witnessed by Alice, seen by Bob" the first
pattern ("witnessed by") matches and yields ["Alice"], yet the extractor
returns ["Alice", "Bob"] — the later "seen by" pattern also contributed, so
the first successful pattern does not alone determine the result. -/
theorem witness_first_pattern_cex :
    extractWitnesses "witnessed by Alice, seen by Bob" = ["Alice", "Bob"] ∧
    witnessPatternNames witnessedByAt "witnessed by Alice, seen by Bob" = ["Alice"] ∧
    extractWitnesses "witnessed by Alice, seen by Bob" ≠
      witnessPatternNames witnessedByAt "witnessed by Alice, seen by Bob" :=
  ⟨by decide, by decide, by decide⟩

/-- C7 amended: witness extraction tries all four lead-in patterns in order
and EVERY successful pattern contributes its comma-split, stripped trailing
clause; the contributions are concatenated in the fixed pattern order. -/
theorem witness_patterns_all_contribute (text : String) :
    extractWitnesses text =
      witnessPatternNames witnessedByAt text ++ witnessPatternNames witnessesAt text ++
      witnessPatternNames seenByAt text ++ witnessPatternNames observedByAt text := by
  simp [extractWitnesses, witnessMatchers, List.append_assoc]

/-! Concrete report inputs for the determinism counterexample. -/

def cexProcessed : ProcessedText :=
  ⟨"text", "text", "text", ⟨0, 1, false, "english"⟩, [], []⟩

def cexSummary : LegalSummary :=
  ⟨"General Criminal Case", [], 0, suggestBailConditions [],
   ⟨0, 0, "As per court discretion", "low",
    "Sentences may run concurrently as per court discretion"⟩,
   "high", []⟩

def cexVReport : ValidationReport :=
  generateValidationReport ⟨none, [], ⟨none, none, none⟩, [], [], [], []⟩

def cexResearch : ResearchData Unit := ⟨⟨false, false, false, false, false, false⟩, ()⟩

/-- C9 counterexample: two runs over identical inputs that read different
clock values (`datetime.now().isoformat()` is taken while the report is
built) produce different reports, so the analysis is not a function of the
input text alone. -/
theorem report_timestamp_cex :
    generateFinalReport cexProcessed () [] cexSummary cexVReport cexResearch
        "2025-01-01T00:00:00" ≠
      generateFinalReport cexProcessed () [] cexSummary cexVReport cexResearch
        "2025-01-01T00:00:01" := by
  intro h
  have h' := congrArg (fun rep => rep.analysisMetadata.timestamp) h
  simp only [generateFinalReport] at h'
  exact absurd h' (by decide)

/-- C9 amended: the analysis report is a deterministic function of the input
narrative, the clock reading, and the external LLM/web-research responses:
with those held fixed the report is reproducible, and two runs that differ
only in the clock reading agree on every field except
`analysis_metadata.timestamp`. -/
theorem report_deterministic_up_to_timestamp {E R : Type} (pt : ProcessedText)
    (ei : E) (lm : List LegalMapping) (ls : LegalSummary) (vr : ValidationReport)
    (lr : ResearchData R) (now1 now2 : String) :
    withTimestamp (generateFinalReport pt ei lm ls vr lr now1) now2 =
      generateFinalReport pt ei lm ls vr lr now2 := rfl

/-! Every error message a validator can attach is a fixed non-empty literal;
this is what lets "truthy error message" in the source coincide with
"non-null error message" in the spec. -/

theorem validateName_msg (n : String) :
    ∀ m, (validateName n).error = some m → m ≠ "" := by
  intro m h
  simp only [validateName] at h
  split_ifs at h <;> (simp at h; subst h; decide)

theorem validateAge_msg (a : AgeValue) :
    ∀ m, (validateAge a).error = some m → m ≠ "" := by
  intro m h
  rcases a with _ | n | s <;> simp only [validateAge] at h <;> split_ifs at h <;>
    (simp at h; subst h; decide)

theorem validateDate_msg (d : String) :
    ∀ m, (validateDate d).error = some m → m ≠ "" := by
  intro m h
  simp only [validateDate] at h
  split_ifs at h <;> (simp at h; subst h; decide)

theorem validateTime_msg (t : String) :
    ∀ m, (validateTime t).error = some m → m ≠ "" := by
  intro m h
  simp only [validateTime] at h
  split_ifs at h <;> (simp at h; subst h; decide)

theorem validateVehicleNumber_msg (v : String) :
    ∀ m, (validateVehicleNumber v).error = some m → m ≠ "" := by
  intro m h
  simp only [validateVehicleNumber] at h
  split_ifs at h <;> (simp at h; subst h; decide)

theorem validateAddress_msg (a : String) :
    ∀ m, (validateAddress a).error = some m → m ≠ "" := by
  intro m h
  simp only [validateAddress] at h
  split_ifs at h <;> (simp at h; subst h; decide)

theorem validatePlace_msg (p : String) :
    ∀ m, (validatePlace p).error = some m → m ≠ "" := by
  intro m h
  simp only [validatePlace] at h
  split_ifs at h <;> (simp at h; subst h; decide)

theorem validateComplainant_msg (c : Option ComplainantObj) :
    ∀ r ∈ validateComplainant c, ∀ m, r.errorMessage = some m → m ≠ "" := by
  intro r hr m hm
  rcases c with _ | cobj
  · simp only [validateComplainant, List.mem_singleton] at hr
    subst hr
    simp at hm
    subst hm
    decide
  · simp only [validateComplainant, List.mem_append] at hr
    rcases hr with (h | h) | h
    · rcases hn : cobj.name with _ | n <;> rw [hn] at h
      · cases h
      · simp only [List.mem_singleton] at h
        subst h
        exact validateName_msg n m (by simpa [mkVR] using hm)
    · rcases ha : cobj.age with _ | a <;> rw [ha] at h
      · cases h
      · simp only [List.mem_singleton] at h
        subst h
        exact validateAge_msg a m (by simpa [mkVR] using hm)
    · rcases hd : cobj.address with _ | ad <;> rw [hd] at h
      · cases h
      · simp only [List.mem_singleton] at h
        subst h
        exact validateAddress_msg ad m (by simpa [mkVR] using hm)

theorem validateAccused_msg (l : List AccusedObj) :
    ∀ r ∈ validateAccused l, ∀ m, r.errorMessage = some m → m ≠ "" := by
  intro r hr m hm
  unfold validateAccused at hr
  split_ifs at hr
  · simp only [List.mem_singleton] at hr
    subst hr
    simp at hm
    subst hm
    decide
  · rcases List.mem_map.mp hr with ⟨⟨i, a⟩, _, rfl⟩
    rcases hn : a.name with _ | n <;> simp only [hn] at hm
    · simp at hm
      subst hm
      decide
    · split_ifs at hm
      · simp at hm
        subst hm
        decide
      · exact validateName_msg n m (by simpa [mkVR] using hm)

theorem validateIncident_msg (inc : IncidentInfo) :
    ∀ r ∈ validateIncidentDetails inc, ∀ m, r.errorMessage = some m → m ≠ "" := by
  intro r hr m hm
  simp only [validateIncidentDetails, List.mem_append] at hr
  rcases hr with (h | h) | h
  · rcases hd : inc.date with _ | d <;> rw [hd] at h <;>
      simp only [List.mem_singleton] at h <;> subst h
    · simp at hm
      subst hm
      decide
    · exact validateDate_msg d m (by simpa [mkVR] using hm)
  · rcases ht : inc.time with _ | t <;> rw [ht] at h
    · cases h
    · simp only [List.mem_singleton] at h
      subst h
      exact validateTime_msg t m (by simpa [mkVR] using hm)
  · rcases hp : inc.place with _ | p <;> rw [hp] at h <;>
      simp only [List.mem_singleton] at h <;> subst h
    · simp at hm
      subst hm
      decide
    · exact validatePlace_msg p m (by simpa [mkVR] using hm)

theorem validateOffences_msg (l : List OffenceObj) :
    ∀ r ∈ validateOffences l, ∀ m, r.errorMessage = some m → m ≠ "" := by
  intro r hr m hm
  unfold validateOffences at hr
  split_ifs at hr
  · simp only [List.mem_singleton] at hr
    subst hr
    simp at hm
    subst hm
    decide
  · rcases List.mem_map.mp hr with ⟨⟨i, o⟩, _, rfl⟩
    rcases ho : o.otype with _ | t <;> simp only [ho] at hm
    · simp at hm
      subst hm
      decide
    · split_ifs at hm
      simp at hm
      subst hm
      decide

theorem validateEvidence_msg (e : ExtractedInput) :
    ∀ r ∈ validateEvidence e, ∀ m, r.errorMessage = some m → m ≠ "" := by
  intro r hr m hm
  simp only [validateEvidence, List.mem_append] at hr
  rcases hr with (h | h) | h
  · split_ifs at h <;> simp only [List.mem_singleton] at h <;> subst h
    · simp at hm
      subst hm
      decide
    · simp at hm
  · rcases List.mem_filterMap.mp h with ⟨⟨i, w⟩, _, hsome⟩
    rcases hw : w.wtype with _ | t
    · simp [hw] at hsome
    · simp only [hw] at hsome
      split_ifs at hsome
      simp only [Option.some.injEq] at hsome
      subst hsome
      simp at hm
  · rcases List.mem_filterMap.mp h with ⟨⟨i, v⟩, _, hsome⟩
    rcases hv : v.number with _ | n
    · simp [hv] at hsome
    · simp only [hv] at hsome
      split_ifs at hsome
      simp only [Option.some.injEq] at hsome
      subst hsome
      exact validateVehicleNumber_msg n m (by simpa [mkVR] using hm)

theorem allResults_msg (e : ExtractedInput) :
    ∀ r ∈ allResults e, ∀ m, r.errorMessage = some m → m ≠ "" := by
  intro r hr
  simp only [allResults, List.mem_append] at hr
  rcases hr with (((h | h) | h) | h) | h
  · exact validateComplainant_msg _ r h
  · exact validateAccused_msg _ r h
  · exact validateIncident_msg _ r h
  · exact validateOffences_msg _ r h
  · exact validateEvidence_msg e r h

/-- C4: the validation summary is valid exactly when its critical-error list
is empty, and that list holds exactly the (non-null) error messages of the
invalid findings. -/
theorem validity_iff_no_critical_errors (e : ExtractedInput) :
    ((validateCompleteFir e).isValid = true ↔ (validateCompleteFir e).criticalErrors = []) ∧
    ((validateCompleteFir e).criticalErrors = (allResults e).filterMap criticalOf) ∧
    (∀ m, m ∈ (validateCompleteFir e).criticalErrors ↔
      ∃ r ∈ allResults e, r.isValid = false ∧ r.errorMessage = some m) := by
  refine ⟨?_, rfl, ?_⟩
  · simp [validateCompleteFir, List.isEmpty_iff]
  · intro m
    show m ∈ (allResults e).filterMap criticalOf ↔ _
    rw [List.mem_filterMap]
    constructor
    · rintro ⟨r, hr, hcr⟩
      have hv : r.isValid = false := by
        by_contra hv
        rw [Bool.not_eq_false] at hv
        simp [criticalOf, hv] at hcr
      refine ⟨r, hr, hv, ?_⟩
      rcases he : r.errorMessage with _ | m'
      · simp [criticalOf, hv, he] at hcr
      · simp only [criticalOf, hv, he, Bool.false_eq_true, if_false] at hcr
        split_ifs at hcr
        simp only [Option.some.injEq] at hcr
        rw [hcr]
    · rintro ⟨r, hr, hv, he⟩
      refine ⟨r, hr, ?_⟩
      have hm : m ≠ "" := allResults_msg e r hr m he
      simp [criticalOf, hv, he, hm]

end FIRAnalysis
